import Mathlib

/-!
Shallow embedding of `src/index.ts` from the simple-notarization-project-example
repository: a single sequential TypeScript workflow that funds a freshly
generated address from a faucet, checks the resulting balance, builds a Locked
notarization with a fluent builder, submits it, and asserts four properties of
the returned on-chain record.

External collaborators (faucet, ledger balance query, client constructors, the
transaction submission and the wall clock) are modelled by an environment `Env`
that fixes the outcome of each external call.  The workflow itself is embedded
as a function from `Env` to the list of externally visible events it performs,
in order, together with an `Except`-style outcome (normal completion, a thrown
`Error`, a rejected SDK call, or a failed `assert`).  JavaScript numbers that
hold exact clock readings are modelled as rationals; `Math.round` is modelled
as exact round-half-up, which agrees with JavaScript on all clock readings in
range.
-/

namespace SimpleNotarization

/-- JavaScript `Math.round` on exact arithmetic: round half toward positive
infinity, i.e. `⌊q + 1/2⌋`. -/
def jsRound (q : ℚ) : ℤ := ⌊q + 1 / 2⌋

/-- Line 51 of `index.ts`:
`const delete_unlock_at = Math.round(Date.now() / 1000 + 86400)`,
where `nowMs` is the millisecond clock reading returned by `Date.now()`. -/
def delete_unlock_at (nowMs : ℚ) : ℤ := jsRound (nowMs / 1000 + 86400)

/-- A lock descriptor as read back from the chain, e.g.
`notarization.immutableMetadata.locking.updateLock`; only its `type` tag is
inspected by the script. -/
structure LockInfo where
  type : String
deriving DecidableEq

/-- The `locking` object of the returned record, holding the update and
transfer locks. -/
structure LockMetadata where
  updateLock : LockInfo
  transferLock : LockInfo
deriving DecidableEq

/-- The `immutableMetadata` field of the returned record; `locking` may be
absent (`undefined` in TypeScript), modelled as `Option`. -/
structure ImmutableMetadata where
  description : String
  locking : Option LockMetadata
deriving DecidableEq

/-- The state payload of the returned record (`notarization.state`). -/
structure NotarizationState where
  data : List ℕ
  metadata : String
deriving DecidableEq

/-- The on-chain notarization record returned by `buildAndExecute`; the fields
the script reads or asserts on. -/
structure OnChainNotarization where
  id : String
  method : String
  state : NotarizationState
  immutableMetadata : ImmutableMetadata
  updatableMetadata : String
  stateVersionCount : ℕ
deriving DecidableEq

/-- Externally visible events of the workflow, in the order the script issues
them: key generation, the two funding-related network calls, the two client
constructions, and the individual fluent-builder calls ending in the single
submission. -/
inductive Event where
  | generateKeypair
  | requestFunds (addr : String)
  | getBalance (addr : String)
  | createReadOnlyClient
  | createNotarizationClient
  | builderCreateLocked
  | withStringState (data : String) (metadata : String)
  | withBytesState (data : List ℕ) (metadata : String)
  | withDeleteLock (unlockAt : ℤ)
  | withImmutableDescription (d : String)
  | withUpdatableMetadata (m : String)
  | finish
  | buildAndExecute
deriving DecidableEq

/-- How a run can fail: a thrown `new Error(msg)`, a rejected SDK/network
call, or the `idx`-th of the four `assert` statements failing
(`idx ∈ {1, 2, 3, 4}` in source order, lines 98–103). -/
inductive WError where
  | thrown (msg : String)
  | sdkRejection (msg : String)
  | assertionFailed (idx : ℕ)
deriving DecidableEq

/-- The environment fixing each external collaborator's behaviour for one run:
the generated address, the result of each awaited external call (`.error m`
models a rejected promise), the clock reading and the submission result. -/
structure Env where
  addr : String
  faucetResult : Except String Unit
  balanceResult : Except String String
  readOnlyClientResult : Except String Unit
  clientResult : Except String Unit
  nowMs : ℚ
  submitResult : Except String OnChainNotarization

/-- The hard-coded byte payload of line 65:
`Uint8Array.from([14, 255, 0, 125, 64, 87, 11, 114, 108, 100])`. -/
def stateBytes : List ℕ := [14, 255, 0, 125, 64, 87, 11, 114, 108, 100]

/-- The hard-coded state metadata string of line 66. -/
def stateMetadata : String := "Document metadata e.g., version specifier"

/-- The hard-coded immutable description of line 69. -/
def immutableDescriptionText : String := "This can not be changed any more"

/-- The hard-coded updatable metadata of line 70. -/
def updatableMetadataText : String := "This can be updated"

/-- Lines 20–39, `getFundedNotarizationClient`: generate a key pair and a
signer, request faucet funds, query the balance once, throw
`"Balance is still 0"` when the returned `totalBalance` is the exact string
`"0"`, otherwise construct the read-only client and then the signing-capable
notarization client.  Returns the events performed together with the
outcome. -/
def getFundedNotarizationClient (env : Env) : List Event × Except WError Unit :=
  let tr := [Event.generateKeypair, Event.requestFunds env.addr]
  match env.faucetResult with
  | .error m => (tr, .error (.sdkRejection m))
  | .ok _ =>
    let tr := tr ++ [Event.getBalance env.addr]
    match env.balanceResult with
    | .error m => (tr, .error (.sdkRejection m))
    | .ok bal =>
      if bal = "0" then
        (tr, .error (.thrown "Balance is still 0"))
      else
        let tr := tr ++ [Event.createReadOnlyClient]
        match env.readOnlyClientResult with
        | .error m => (tr, .error (.sdkRejection m))
        | .ok _ =>
          let tr := tr ++ [Event.createNotarizationClient]
          match env.clientResult with
          | .error m => (tr, .error (.sdkRejection m))
          | .ok _ => (tr, .ok ())

/-- The fluent-builder call sequence of lines 57–72: `createLocked()`,
`withBytesState` with the fixed byte payload and metadata,
`withDeleteLock(TimeLock.withUnlockAt(delete_unlock_at))`,
`withImmutableDescription`, `withUpdatableMetadata`, `finish()` and the single
`buildAndExecute` submission. -/
def builderEvents (nowMs : ℚ) : List Event :=
  [Event.builderCreateLocked,
   Event.withBytesState stateBytes stateMetadata,
   Event.withDeleteLock (delete_unlock_at nowMs),
   Event.withImmutableDescription immutableDescriptionText,
   Event.withUpdatableMetadata updatableMetadataText,
   Event.finish,
   Event.buildAndExecute]

/-- Lines 98–103: the four `assert` statements checked, in source order, on
the returned record; the first violated one raises, later ones are not
reached.  Accessing `locking.updateLock` is only performed after asserting
`locking !== undefined`. -/
def checkAssertions (n : OnChainNotarization) : Except WError Unit :=
  if n.method = "Locked" then
    match n.immutableMetadata.locking with
    | none => .error (.assertionFailed 2)
    | some lk =>
      if lk.updateLock.type = "UntilDestroyed" then
        if lk.transferLock.type = "UntilDestroyed" then .ok ()
        else .error (.assertionFailed 4)
      else .error (.assertionFailed 3)
  else .error (.assertionFailed 1)

/-- Lines 42–107, `createLocked`: obtain the funded notarization client,
compute the delete-lock unlock time from the clock, run the fluent builder
ending in one `buildAndExecute`, then check the four assertions on the
returned record.  Every awaited call that rejects aborts the run at that
point with the events performed so far. -/
def createLocked (env : Env) : List Event × Except WError Unit :=
  match getFundedNotarizationClient env with
  | (tr, .error e) => (tr, .error e)
  | (tr, .ok _) =>
    let tr := tr ++ builderEvents env.nowMs
    match env.submitResult with
    | .error m => (tr, .error (.sdkRejection m))
    | .ok n => (tr, checkAssertions n)

/-- Outcome of `main().catch(...)` (lines 113–116): either the workflow
resolved normally, or its rejection reached the top-level `catch`, which
logged it via `console.error`. -/
inductive MainResult where
  | normal
  | loggedError (e : WError)
deriving DecidableEq

/-- Lines 109–116: `main` awaits `createLocked()`; the attached `.catch`
handler receives any rejection and logs it. -/
def main (env : Env) : List Event × MainResult :=
  match createLocked env with
  | (tr, .ok _) => (tr, .normal)
  | (tr, .error e) => (tr, .loggedError e)

/-- Node exit status of a settled run: the `.catch` handler only calls
`console.error` — it neither rethrows nor sets `process.exitCode` — so the
resulting promise chain is fulfilled and the process exits with the default
status 0 in both the normal and the logged-error case. -/
def processExitCode : MainResult → ℕ
  | .normal => 0
  | .loggedError _ => 0

/-- The canonical event sequence of a fully successful run; every run's trace
is a prefix of it that stops at the first failing call. -/
def fullTrace (addr : String) (nowMs : ℚ) : List Event :=
  [Event.generateKeypair, Event.requestFunds addr, Event.getBalance addr,
   Event.createReadOnlyClient, Event.createNotarizationClient] ++ builderEvents nowMs

/-- A returned record satisfying all four assertions, used by concrete
witness runs. -/
def goodRecord : OnChainNotarization :=
  { id := "0x42"
    method := "Locked"
    state := { data := stateBytes, metadata := stateMetadata }
    immutableMetadata :=
      { description := immutableDescriptionText
        locking := some
          { updateLock := { type := "UntilDestroyed" }
            transferLock := { type := "UntilDestroyed" } } }
    updatableMetadata := updatableMetadataText
    stateVersionCount := 1 }

/-- An environment in which every external call succeeds and the faucet has
funded the address. -/
def goodEnv : Env :=
  { addr := "0xabc"
    faucetResult := .ok ()
    balanceResult := .ok "1000000000"
    readOnlyClientResult := .ok ()
    clientResult := .ok ()
    nowMs := 1700000000000
    submitResult := .ok goodRecord }

/-- An environment in which the balance read back after funding is the exact
string `"0"`. -/
def zeroBalanceEnv : Env :=
  { goodEnv with balanceResult := .ok "0" }

/-- An environment whose balance string `"00"` is numerically zero but not
the exact string `"0"`. -/
def zeroZeroEnv : Env :=
  { goodEnv with balanceResult := .ok "00" }

/-- The post-submission checks succeed exactly when the record has method
`"Locked"`, a present locking descriptor, and both lock types equal to
`"UntilDestroyed"`. -/
lemma checkAssertions_ok (n : OnChainNotarization) :
    checkAssertions n = Except.ok () ↔
      n.method = "Locked" ∧ ∃ lk, n.immutableMetadata.locking = some lk ∧
        lk.updateLock.type = "UntilDestroyed" ∧ lk.transferLock.type = "UntilDestroyed" := by
  by_cases hm : n.method = "Locked"
  · rcases hl : n.immutableMetadata.locking with _ | lk
    · simp [checkAssertions, hm, hl]
    · by_cases hu : lk.updateLock.type = "UntilDestroyed"
      · by_cases ht : lk.transferLock.type = "UntilDestroyed"
        · simp [checkAssertions, hm, hl, hu, ht]
        · simp [checkAssertions, hm, hl, hu, ht]
      · simp [checkAssertions, hm, hl, hu]
  · simp [checkAssertions, hm]

/-- Every failure of the post-submission checks is one of the four assertion
failures, numbered 1 to 4 in source order. -/
lemma checkAssertions_error (n : OnChainNotarization) (e : WError)
    (h : checkAssertions n = Except.error e) :
    ∃ i, e = WError.assertionFailed i ∧ 1 ≤ i ∧ i ≤ 4 := by
  by_cases hm : n.method = "Locked"
  · rcases hl : n.immutableMetadata.locking with _ | lk
    · simp [checkAssertions, hm, hl] at h
      exact ⟨2, h.symm, by norm_num⟩
    · by_cases hu : lk.updateLock.type = "UntilDestroyed"
      · by_cases ht : lk.transferLock.type = "UntilDestroyed"
        · simp [checkAssertions, hm, hl, hu, ht] at h
        · simp [checkAssertions, hm, hl, hu, ht] at h
          exact ⟨4, h.symm, by norm_num⟩
      · simp [checkAssertions, hm, hl, hu] at h
        exact ⟨3, h.symm, by norm_num⟩
  · simp [checkAssertions, hm] at h
    exact ⟨1, h.symm, by norm_num⟩

/-- A run that reads balance `"0"` after a successful faucet call stops right
there: three events, one thrown error. -/
lemma createLocked_zero_run (env : Env)
    (hf : env.faucetResult = Except.ok ()) (hb : env.balanceResult = Except.ok "0") :
    createLocked env =
      ([Event.generateKeypair, Event.requestFunds env.addr, Event.getBalance env.addr],
       Except.error (WError.thrown "Balance is still 0")) := by
  simp [createLocked, getFundedNotarizationClient, hf, hb]

/-- When the faucet call, the balance query and both client constructions
succeed and the balance is not `"0"`, the run performs the whole canonical
event sequence, whatever the submission does. -/
lemma createLocked_trace_funded (env : Env) (b : String)
    (hf : env.faucetResult = Except.ok ()) (hb : env.balanceResult = Except.ok b)
    (hb0 : b ≠ "0") (hr : env.readOnlyClientResult = Except.ok ())
    (hc : env.clientResult = Except.ok ()) :
    (createLocked env).1 = fullTrace env.addr env.nowMs := by
  rcases hs : env.submitResult with m | n <;>
    simp [createLocked, getFundedNotarizationClient, fullTrace, hf, hb, hb0, hr, hc, hs]

/-- When every call up to and including the submission succeeds, the run's
outcome is exactly the result of the four assertion checks. -/
lemma createLocked_outcome_ok (env : Env) (b : String) (n : OnChainNotarization)
    (hf : env.faucetResult = Except.ok ()) (hb : env.balanceResult = Except.ok b)
    (hb0 : b ≠ "0") (hr : env.readOnlyClientResult = Except.ok ())
    (hc : env.clientResult = Except.ok ()) (hs : env.submitResult = Except.ok n) :
    (createLocked env).2 = checkAssertions n := by
  simp [createLocked, getFundedNotarizationClient, hf, hb, hb0, hr, hc, hs]

/-- Once the balance gate passes, the read-only client construction is
attempted, and whatever happens afterwards the run never fails with a thrown
`Error`: the remaining failure modes are SDK rejections and assertion
failures. -/
lemma createLocked_funded (env : Env) (b : String)
    (hf : env.faucetResult = Except.ok ()) (hb : env.balanceResult = Except.ok b)
    (hb0 : b ≠ "0") :
    Event.createReadOnlyClient ∈ (createLocked env).1 ∧
    ∀ m, (createLocked env).2 ≠ Except.error (WError.thrown m) := by
  rcases hr : env.readOnlyClientResult with rm | ru
  · simp [createLocked, getFundedNotarizationClient, hf, hb, hb0, hr]
  · rcases hc : env.clientResult with cm | cu
    · simp [createLocked, getFundedNotarizationClient, hf, hb, hb0, hr, hc]
    · rcases hs : env.submitResult with sm | n
      · simp [createLocked, getFundedNotarizationClient, hf, hb, hb0, hr, hc, hs, builderEvents]
      · constructor
        · simp [createLocked, getFundedNotarizationClient, hf, hb, hb0, hr, hc, hs, builderEvents]
        · intro m hm
          have h2 : (createLocked env).2 = checkAssertions n := by
            simp [createLocked, getFundedNotarizationClient, hf, hb, hb0, hr, hc, hs]
          rw [h2] at hm
          obtain ⟨i, hi, _⟩ := checkAssertions_error n _ hm
          exact absurd hi (by simp)

/-- Rounding half up stays within half a unit of the exact value. -/
lemma jsRound_close (q : ℚ) : |((jsRound q : ℚ)) - q| ≤ 1 / 2 := by
  have h1 : ((jsRound q : ℚ)) ≤ q + 1 / 2 := Int.floor_le (q + 1 / 2)
  have h2 : q + 1 / 2 < ((jsRound q : ℚ)) + 1 := Int.lt_floor_add_one (q + 1 / 2)
  rw [abs_le]
  constructor <;> linarith

/-- Claim C1: after a successful submission the workflow validates the
returned record with exactly the four assertions of lines 98–103 — it
completes without raising iff the record has method `"Locked"`, a present
locking descriptor, and update-lock and transfer-lock types equal to
`"UntilDestroyed"`; and every failure raised after a successful submission is
one of those four assertion failures. -/
theorem claim_C1_assertions (env : Env) (b : String) (n : OnChainNotarization)
    (hf : env.faucetResult = Except.ok ()) (hb : env.balanceResult = Except.ok b)
    (hb0 : b ≠ "0") (hr : env.readOnlyClientResult = Except.ok ())
    (hc : env.clientResult = Except.ok ()) (hs : env.submitResult = Except.ok n) :
    ((createLocked env).2 = Except.ok () ↔
      n.method = "Locked" ∧ ∃ lk, n.immutableMetadata.locking = some lk ∧
        lk.updateLock.type = "UntilDestroyed" ∧ lk.transferLock.type = "UntilDestroyed") ∧
    (∀ e, (createLocked env).2 = Except.error e →
      ∃ i, e = WError.assertionFailed i ∧ 1 ≤ i ∧ i ≤ 4) := by
  rw [createLocked_outcome_ok env b n hf hb hb0 hr hc hs]
  exact ⟨checkAssertions_ok n, fun e he => checkAssertions_error n e he⟩

/-- Concrete witness for C1: in the all-success environment the record
satisfies all four conditions and the run completes without raising. -/
theorem claim_C1_witness : (createLocked goodEnv).2 = Except.ok () :=
  (claim_C1_assertions goodEnv "1000000000" goodRecord rfl rfl (by decide) rfl rfl rfl).1.mpr
    ⟨rfl, ⟨{ updateLock := { type := "UntilDestroyed" }
             transferLock := { type := "UntilDestroyed" } }, rfl, rfl, rfl⟩⟩

/-- Claim C2: when the balance read back after a successful faucet call is
zero, the run raises the error `"Balance is still 0"` and stops after the
balance query — neither client is constructed, the builder is never invoked
and nothing is submitted. -/
theorem claim_C2_zero_balance (env : Env)
    (hf : env.faucetResult = Except.ok ()) (hb : env.balanceResult = Except.ok "0") :
    (createLocked env).2 = Except.error (WError.thrown "Balance is still 0") ∧
    (createLocked env).1 =
      [Event.generateKeypair, Event.requestFunds env.addr, Event.getBalance env.addr] ∧
    Event.createReadOnlyClient ∉ (createLocked env).1 ∧
    Event.createNotarizationClient ∉ (createLocked env).1 ∧
    Event.builderCreateLocked ∉ (createLocked env).1 ∧
    Event.buildAndExecute ∉ (createLocked env).1 := by
  rw [createLocked_zero_run env hf hb]
  refine ⟨rfl, rfl, ?_, ?_, ?_, ?_⟩ <;> simp

/-- Concrete witness for C2 at an environment whose balance query returns
`"0"`. -/
theorem claim_C2_witness :
    (createLocked zeroBalanceEnv).2 = Except.error (WError.thrown "Balance is still 0") :=
  (claim_C2_zero_balance zeroBalanceEnv rfl rfl).1

/-- Claim C3: in every funded run the value handed to
`TimeLock.withUnlockAt` via the delete lock is `delete_unlock_at` of the
clock reading, and that value is within 5 seconds (in fact within half a
second) of `nowMs / 1000 + 86400`. -/
theorem claim_C3_unlock_time (env : Env) (b : String)
    (hf : env.faucetResult = Except.ok ()) (hb : env.balanceResult = Except.ok b)
    (hb0 : b ≠ "0") (hr : env.readOnlyClientResult = Except.ok ())
    (hc : env.clientResult = Except.ok ()) :
    Event.withDeleteLock (delete_unlock_at env.nowMs) ∈ (createLocked env).1 ∧
    |((delete_unlock_at env.nowMs : ℚ)) - (env.nowMs / 1000 + 86400)| ≤ 5 := by
  constructor
  · rw [createLocked_trace_funded env b hf hb hb0 hr hc]
    simp [fullTrace, builderEvents]
  · exact le_trans (jsRound_close (env.nowMs / 1000 + 86400)) (by norm_num)

/-- Concrete witness for C3 at the all-success environment. -/
theorem claim_C3_witness :
    Event.withDeleteLock (delete_unlock_at goodEnv.nowMs) ∈ (createLocked goodEnv).1 ∧
    |((delete_unlock_at goodEnv.nowMs : ℚ)) - (goodEnv.nowMs / 1000 + 86400)| ≤ 5 :=
  claim_C3_unlock_time goodEnv "1000000000" rfl rfl (by decide) rfl rfl

/-- Claim C4: whenever the balance gate passes and both clients are
constructed, the builder is started exactly once and exactly one
`finish`/`buildAndExecute` submission is issued, whatever the submission
returns. -/
theorem claim_C4_single_submission (env : Env) (b : String)
    (hf : env.faucetResult = Except.ok ()) (hb : env.balanceResult = Except.ok b)
    (hb0 : b ≠ "0") (hr : env.readOnlyClientResult = Except.ok ())
    (hc : env.clientResult = Except.ok ()) :
    (createLocked env).1.count Event.builderCreateLocked = 1 ∧
    (createLocked env).1.count Event.finish = 1 ∧
    (createLocked env).1.count Event.buildAndExecute = 1 := by
  rw [createLocked_trace_funded env b hf hb hb0 hr hc]
  refine ⟨?_, ?_, ?_⟩ <;> simp [fullTrace, builderEvents, List.count_cons]

/-- Concrete witness for C4 at the all-success environment. -/
theorem claim_C4_witness :
    (createLocked goodEnv).1.count Event.builderCreateLocked = 1 ∧
    (createLocked goodEnv).1.count Event.finish = 1 ∧
    (createLocked goodEnv).1.count Event.buildAndExecute = 1 :=
  claim_C4_single_submission goodEnv "1000000000" rfl rfl (by decide) rfl rfl

/-- Claim C5: in every run the script never calls `withStringState`, every
state payload it supplies is the fixed 10-byte array plus the fixed metadata
string, and whenever the builder is invoked that byte-state call is supplied
exactly once. -/
theorem claim_C5_bytes_state_only (env : Env) :
    (∀ s m, Event.withStringState s m ∉ (createLocked env).1) ∧
    ((createLocked env).1.count (Event.withBytesState stateBytes stateMetadata) =
      if Event.builderCreateLocked ∈ (createLocked env).1 then 1 else 0) ∧
    (∀ bs m, Event.withBytesState bs m ∈ (createLocked env).1 →
      bs = stateBytes ∧ m = stateMetadata) := by
  rcases hf : env.faucetResult with fm | fu
  · simp [createLocked, getFundedNotarizationClient, hf]
  · rcases hb : env.balanceResult with bm | bal
    · simp [createLocked, getFundedNotarizationClient, hf, hb]
    · by_cases hb0 : bal = "0"
      · simp [createLocked, getFundedNotarizationClient, hf, hb, hb0]
      · rcases hr : env.readOnlyClientResult with rm | ru
        · simp [createLocked, getFundedNotarizationClient, hf, hb, hb0, hr]
        · rcases hc : env.clientResult with cm | cu
          · simp [createLocked, getFundedNotarizationClient, hf, hb, hb0, hr, hc]
          · rcases hs : env.submitResult with sm | n <;>
              simp [createLocked, getFundedNotarizationClient, hf, hb, hb0, hr, hc, hs,
                builderEvents, List.count_cons]

/-- Claim C6: the steps execute strictly in the canonical order — every
run's event trace is a prefix of the canonical sequence (key generation,
faucet request, balance query, read-only client, signing client, builder
calls, single submission), and a fully successful run performs it
entirely. -/
theorem claim_C6_sequential (env : Env) :
    (∃ s, fullTrace env.addr env.nowMs = (createLocked env).1 ++ s) ∧
    ((createLocked env).2 = Except.ok () →
      (createLocked env).1 = fullTrace env.addr env.nowMs) := by
  rcases hf : env.faucetResult with fm | fu
  · constructor
    · exact ⟨[Event.getBalance env.addr, Event.createReadOnlyClient,
        Event.createNotarizationClient] ++ builderEvents env.nowMs,
        by simp [createLocked, getFundedNotarizationClient, fullTrace, hf]⟩
    · intro h
      simp [createLocked, getFundedNotarizationClient, hf] at h
  · rcases hb : env.balanceResult with bm | bal
    · constructor
      · exact ⟨[Event.createReadOnlyClient, Event.createNotarizationClient] ++
          builderEvents env.nowMs,
          by simp [createLocked, getFundedNotarizationClient, fullTrace, hf, hb]⟩
      · intro h
        simp [createLocked, getFundedNotarizationClient, hf, hb] at h
    · by_cases hb0 : bal = "0"
      · constructor
        · exact ⟨[Event.createReadOnlyClient, Event.createNotarizationClient] ++
            builderEvents env.nowMs,
            by simp [createLocked, getFundedNotarizationClient, fullTrace, hf, hb, hb0]⟩
        · intro h
          simp [createLocked, getFundedNotarizationClient, hf, hb, hb0] at h
      · rcases hr : env.readOnlyClientResult with rm | ru
        · constructor
          · exact ⟨[Event.createNotarizationClient] ++ builderEvents env.nowMs,
              by simp [createLocked, getFundedNotarizationClient, fullTrace, hf, hb, hb0, hr]⟩
          · intro h
            simp [createLocked, getFundedNotarizationClient, hf, hb, hb0, hr] at h
        · rcases hc : env.clientResult with cm | cu
          · constructor
            · exact ⟨builderEvents env.nowMs,
                by simp [createLocked, getFundedNotarizationClient, fullTrace, hf, hb, hb0,
                  hr, hc]⟩
            · intro h
              simp [createLocked, getFundedNotarizationClient, hf, hb, hb0, hr, hc] at h
          · constructor
            · exact ⟨[], by
                rw [createLocked_trace_funded env bal hf hb hb0 hr hc, List.append_nil]⟩
            · exact fun _ => createLocked_trace_funded env bal hf hb hb0 hr hc

/-- Concrete witness for C6: the all-success run performs the whole canonical
sequence. -/
theorem claim_C6_witness :
    (createLocked goodEnv).1 = fullTrace goodEnv.addr goodEnv.nowMs :=
  (claim_C6_sequential goodEnv).2 (by rfl)

/-- Claim C7: every error raised anywhere in the workflow — and only an
error — reaches the top-level entry point unchanged, where it is logged; the
trace of `main` is exactly the trace of the workflow (nothing is caught,
retried or re-run at any inner point). -/
theorem claim_C7_propagation (env : Env) (e : WError) :
    ((main env).2 = MainResult.loggedError e ↔ (createLocked env).2 = Except.error e) ∧
    (main env).1 = (createLocked env).1 := by
  rcases h : createLocked env with ⟨tr, r⟩
  rcases r with e2 | u
  · simp [main, h]
  · cases u
    simp [main, h]

/-- Claim C8: the zero-balance gate is a strict string comparison — the run
raises `"Balance is still 0"` exactly when the returned `totalBalance` is the
exact string `"0"`, and it proceeds to construct the read-only client exactly
when it is any other string (including numerically-zero strings such as
`"00"`). -/
theorem claim_C8_strict_comparison (env : Env) (b : String)
    (hf : env.faucetResult = Except.ok ()) (hb : env.balanceResult = Except.ok b) :
    ((createLocked env).2 = Except.error (WError.thrown "Balance is still 0") ↔ b = "0") ∧
    (Event.createReadOnlyClient ∈ (createLocked env).1 ↔ b ≠ "0") := by
  by_cases hb0 : b = "0"
  · subst hb0
    rw [createLocked_zero_run env hf hb]
    simp
  · obtain ⟨hmem, hnt⟩ := createLocked_funded env b hf hb hb0
    exact ⟨⟨fun h => absurd h (hnt _), fun h => absurd h hb0⟩,
      ⟨fun _ => hb0, fun _ => hmem⟩⟩

/-- Concrete witness for C8: the balance string `"00"` is treated as funded —
no zero-balance error, and the workflow proceeds to the read-only client. -/
theorem claim_C8_witness :
    ((createLocked zeroZeroEnv).2 = Except.error (WError.thrown "Balance is still 0") ↔
      ("00" : String) = "0") ∧
    (Event.createReadOnlyClient ∈ (createLocked zeroZeroEnv).1 ↔ ("00" : String) ≠ "0") :=
  claim_C8_strict_comparison zeroZeroEnv "00" rfl rfl

/-- Claim C9: the top-level catch handler consumes every workflow rejection —
each failing run ends in the logged-error state, never rethrown — and the
process exit status is the default 0 in every settled run, so failure is not
distinguishable from success by exit code. -/
theorem claim_C9_exit_zero (env : Env) (e : WError) :
    ((createLocked env).2 = Except.error e → (main env).2 = MainResult.loggedError e) ∧
    processExitCode (main env).2 = 0 := by
  rcases h : createLocked env with ⟨tr, r⟩
  rcases r with e2 | u
  · simp [main, h, processExitCode]
  · cases u
    simp [main, h, processExitCode]

/-- Concrete witness for C9: the zero-balance failure is logged and the exit
status is still 0. -/
theorem claim_C9_witness :
    (main zeroBalanceEnv).2 = MainResult.loggedError (WError.thrown "Balance is still 0") ∧
    processExitCode (main zeroBalanceEnv).2 = 0 :=
  ⟨(claim_C9_exit_zero zeroBalanceEnv (WError.thrown "Balance is still 0")).1 (by rfl),
   (claim_C9_exit_zero zeroBalanceEnv (WError.thrown "Balance is still 0")).2⟩

/-- Claim C10: in every funded run the delete-lock value handed to the
builder is a whole number of Unix seconds — an integer within half a second
of the exact value `nowMs / 1000 + 86400` — and it is the only unlock value
ever supplied. -/
theorem claim_C10_integer_seconds (env : Env) (b : String)
    (hf : env.faucetResult = Except.ok ()) (hb : env.balanceResult = Except.ok b)
    (hb0 : b ≠ "0") (hr : env.readOnlyClientResult = Except.ok ())
    (hc : env.clientResult = Except.ok ()) :
    ∃ z : ℤ, Event.withDeleteLock z ∈ (createLocked env).1 ∧
      |((z : ℚ)) - (env.nowMs / 1000 + 86400)| ≤ 1 / 2 ∧
      ∀ z2 : ℤ, Event.withDeleteLock z2 ∈ (createLocked env).1 → z2 = z := by
  refine ⟨delete_unlock_at env.nowMs, ?_, jsRound_close (env.nowMs / 1000 + 86400), ?_⟩
  · rw [createLocked_trace_funded env b hf hb hb0 hr hc]
    simp [fullTrace, builderEvents]
  · intro z2 hz2
    rw [createLocked_trace_funded env b hf hb hb0 hr hc] at hz2
    simp [fullTrace, builderEvents] at hz2
    exact hz2

/-- Concrete witness for C10 at the all-success environment. -/
theorem claim_C10_witness :
    ∃ z : ℤ, Event.withDeleteLock z ∈ (createLocked goodEnv).1 ∧
      |((z : ℚ)) - (goodEnv.nowMs / 1000 + 86400)| ≤ 1 / 2 ∧
      ∀ z2 : ℤ, Event.withDeleteLock z2 ∈ (createLocked goodEnv).1 → z2 = z :=
  claim_C10_integer_seconds goodEnv "1000000000" rfl rfl (by decide) rfl rfl

end SimpleNotarization
